import Mathlib

set_option maxRecDepth 9000

/-!
Verification of the prompt-composition and response-normalization logic of
`src/app.py` (Imagen + Nano Banana Streamlit front end).

Strings are modelled as `List Char` (via `String.data`) so that Python string
operations (`str.replace`, `str.split`, `in`, slicing) can be given faithful
executable definitions and reasoned about by induction.
-/

namespace ImagenApp

/-- Python `s.replace(pat, rep)` on character lists: scan left to right, at
each position replace the first matching non-overlapping occurrence of `pat`
and continue after it.  (Python's behaviour for an empty `pat` differs, but
every use in `app.py` has a non-empty pattern, which the guard reflects.) -/
def pyReplace (l pat rep : List Char) : List Char :=
  match l with
  | [] => []
  | c :: rest =>
    if h : pat ≠ [] ∧ pat.isPrefixOf (c :: rest) then
      rep ++ pyReplace ((c :: rest).drop pat.length) pat rep
    else
      c :: pyReplace rest pat rep
termination_by l.length
decreasing_by
  · simp only [List.length_drop, List.length_cons]
    have hp : 0 < pat.length := List.length_pos.mpr h.1
    omega
  · simp

/-- Whether `pat` occurs as a contiguous substring of `l`
(Python's `pat in l`, for non-empty `pat`). -/
def occurs (l pat : List Char) : Bool :=
  match l with
  | [] => false
  | c :: rest => pat.isPrefixOf (c :: rest) || occurs rest pat

/-- Whether `pat` occurs starting at one of the first `n` positions of `l`. -/
def hitsWithin : Nat → List Char → List Char → Bool
  | 0, _, _ => false
  | _ + 1, [], _ => false
  | n + 1, c :: rest, pat => pat.isPrefixOf (c :: rest) || hitsWithin n rest pat

theorem pyReplace_nil (pat rep : List Char) : pyReplace [] pat rep = [] := by
  rw [pyReplace]

theorem pyReplace_cons_miss {pat : List Char} (rep : List Char) (c : Char)
    (rest : List Char) (h : ¬ pat.isPrefixOf (c :: rest)) :
    pyReplace (c :: rest) pat rep = c :: pyReplace rest pat rep := by
  rw [pyReplace]
  exact dif_neg (fun hc => h hc.2)

theorem pyReplace_cons_hit {pat : List Char} (rep : List Char) (c : Char)
    (rest : List Char) (h1 : pat ≠ []) (h2 : pat.isPrefixOf (c :: rest)) :
    pyReplace (c :: rest) pat rep
      = rep ++ pyReplace ((c :: rest).drop pat.length) pat rep := by
  rw [pyReplace]
  exact dif_pos ⟨h1, h2⟩

theorem pyReplace_of_not_occurs {l pat : List Char} (rep : List Char)
    (h : occurs l pat = false) : pyReplace l pat rep = l := by
  induction l with
  | nil => exact pyReplace_nil pat rep
  | cons c rest ih =>
    rw [occurs] at h
    rcases Bool.or_eq_false_iff.mp h with ⟨h1, h2⟩
    rw [pyReplace_cons_miss rep c rest (by simp [h1]), ih h2]

theorem pyReplace_split {pat : List Char} (rep suf : List Char)
    (hne : pat ≠ []) (hsuf : occurs suf pat = false) :
    ∀ pre : List Char,
      hitsWithin pre.length (pre ++ pat ++ suf) pat = false →
      pyReplace (pre ++ pat ++ suf) pat rep = pre ++ rep ++ suf := by
  intro pre
  induction pre with
  | nil =>
    intro _
    cases pat with
    | nil => exact absurd rfl hne
    | cons a p =>
      have hpref : (a :: p).isPrefixOf ((a :: p) ++ suf) = true :=
        List.isPrefixOf_iff_prefix.mpr (List.prefix_append _ _)
      have hdrop : ((a :: p) ++ suf).drop (a :: p).length = suf :=
        List.drop_left _ _
      simp only [List.nil_append]
      rw [show (a :: p) ++ suf = a :: (p ++ suf) from rfl] at hpref hdrop ⊢
      rw [pyReplace_cons_hit rep a (p ++ suf) hne hpref, hdrop,
        pyReplace_of_not_occurs rep hsuf]
  | cons c pre ih =>
    intro h
    rw [show (c :: pre) ++ pat ++ suf = c :: (pre ++ pat ++ suf) from rfl,
      List.length_cons, hitsWithin] at h
    rcases Bool.or_eq_false_iff.mp h with ⟨h1, h2⟩
    rw [show (c :: pre) ++ pat ++ suf = c :: (pre ++ pat ++ suf) from rfl,
      pyReplace_cons_miss rep c _ (by intro hh; rw [hh] at h1; cases h1), ih h2]
    rfl

/-- The fixed department templates, `PROMPT_TEMPLATES` (app.py lines 175-319),
as an association list in source order.  Each value is the exact contents of
the corresponding Python triple-quoted string. -/
def PROMPT_TEMPLATES : List (String × String) :=
  [("Marketing", "
You are a senior AI prompt engineer creating polished prompts for marketing and advertising visuals.

Task:
- Take the user’s raw input and turn it into a polished, professional, campaign-ready image prompt.
- Expand the idea with rich marketing-oriented details that make it visually persuasive.

When refining, include:
- Background & setting (modern, lifestyle, commercial, aspirational)
- Lighting & atmosphere (studio lights, golden hour, cinematic)
- Style (photorealistic, cinematic, product photography, lifestyle branding)
- Perspective & composition (wide shot, close-up, dramatic angles)
- Mood, tone & branding suitability (premium, sleek, aspirational)

Special Brand Rule:
- If the user asks for an image related to a specific brand, seamlessly add the brand’s tagline into the final image prompt.
- For **Dr. Reddy’s**, the correct tagline is: “Good Health Can’t Wait.”

Rules:
- Stay faithful to the user’s idea but elevate it for use in ads, social media, or presentations.
- Output **only** the final refined image prompt (no explanations, no extra text).

User raw input:
{USER_PROMPT}


Refined marketing image prompt:
"),
   ("Design", "
You are a senior AI prompt engineer supporting a creative design team.

Your job:
- Expand raw input into a visually inspiring, design-oriented image prompt.
- Add imaginative details about:
  • Artistic styles (minimalist, abstract, futuristic, flat, 3D render, watercolor, digital illustration)
  • Color schemes, palettes, textures, and patterns
  • Composition and balance (symmetry, negative space, creative framing)
  • Lighting and atmosphere (soft glow, vibrant contrast, surreal shading)
  • Perspective (isometric, top-down, wide shot, close-up)

Rules:
- Keep fidelity to the idea but make it highly creative and visually unique.
- Output only the final refined image prompt.

User’s raw prompt:
\"{USER_PROMPT}\"

Refined design image prompt:
"),
   ("General", "
You are an expert AI prompt engineer specialized in creating vivid and descriptive image prompts.

Your job:
- Expand the user’s input into a detailed, clear prompt for an image generation model.
- Add missing details such as:
  • Background and setting
  • Lighting and mood
  • Style and realism level
  • Perspective and composition

Rules:
- Stay true to the user’s intent.
- Keep language concise, descriptive, and expressive.
- Output only the final refined image prompt.

User’s raw prompt:
\"{USER_PROMPT}\"

Refined general image prompt:
"),
   ("DPEX", "
You are a senior AI prompt engineer creating refined prompts for IT and technology-related visuals.

Your job:
- Transform the raw input into a detailed, professional, and technology-focused image prompt.
- Expand with contextual details about:
  • Technology environments (server rooms, data centers, cloud systems, coding workspaces)
  • Digital elements (network diagrams, futuristic UIs, holograms, cybersecurity visuals)
  • People in IT roles (developers, engineers, admins, tech support, collaboration)
  • Tone (innovative, technical, futuristic, professional)
  • Composition (screens, servers, code on monitors, abstract digital patterns)
  • Lighting and effects (LED glow, cyberpunk tones, neon highlights, modern tech ambiance)

Rules:
- Ensure images are suitable for IT presentations, product demos, training, technical documentation, and digital transformation campaigns.
- Stay true to the user’s intent but emphasize a technological and innovative look.
- Output only the final refined image prompt.

User’s raw prompt:
\"{USER_PROMPT}\"

Refined DPEX image prompt:
"),
   ("HR", "
You are a senior AI prompt engineer creating refined prompts for human resources and workplace-related visuals.

Your job:
- Transform the raw input into a detailed, professional, and HR-focused image prompt.
- Expand with contextual details about:
  • Workplace settings (modern office, meeting rooms, open workspaces, onboarding sessions)
  • People interactions (interviews, teamwork, training, collaboration, diversity and inclusion)
  • Themes (employee engagement, professional growth, recruitment, performance evaluation)
  • Composition (groups in discussion, managers mentoring, collaborative workshops)
  • Lighting and tone (bright, welcoming, professional, inclusive)

Rules:
- Ensure images are suitable for HR presentations, recruitment campaigns, internal training, or employee engagement material.
- Stay true to the user’s intent but emphasize people, culture, and workplace positivity.
- Output only the final refined image prompt.

User’s raw prompt:
\"{USER_PROMPT}\"

Refined HR image prompt:
"),
   ("Business", "
You are a senior AI prompt engineer creating refined prompts for business and corporate visuals.

Your job:
- Transform the raw input into a detailed, professional, and business-oriented image prompt.
- Expand with contextual details about:
  • Corporate settings (boardrooms, skyscrapers, modern offices, networking events)
  • Business activities (presentations, negotiations, brainstorming sessions, teamwork)
  • People (executives, entrepreneurs, consultants, diverse teams, global collaboration)
  • Tone (professional, ambitious, strategic, innovative)
  • Composition (formal meetings, handshake deals, conference tables, city skyline backgrounds)
  • Lighting and atmosphere (clean, modern, premium, professional)

Rules:
- Ensure images are suitable for corporate branding, investor decks, strategy sessions, or professional reports.
- Stay true to the user’s intent but emphasize professionalism, ambition, and success.
- Output only the final refined image prompt.

User’s raw prompt:
\"{USER_PROMPT}\"

Refined business image prompt:
")]

/-- First binding of `STYLE_DESCRIPTIONS` (app.py lines 322-361): the full
style table.  In the source this binding is immediately shadowed by the empty
rebinding at line 363, so it is never consulted at runtime. -/
def STYLE_DESCRIPTIONS_v1 : List (String × String) :=
  [("None", "No special styling — keep the image natural, faithful to the user’s idea."),
   ("Smart", "A clean, balanced, and polished look. Professional yet neutral, visually appealing without strong artistic bias."),
   ("Cinematic", "Film-style composition with professional lighting. Wide dynamic range, dramatic highlights, storytelling feel."),
   ("Creative", "Playful, imaginative, and experimental. Bold artistic choices, unexpected elements, and expressive color use."),
   ("Bokeh", "Photography style with shallow depth of field. Subject in sharp focus with soft, dreamy, blurred backgrounds."),
   ("Macro", "Extreme close-up photography. High detail, textures visible, shallow focus highlighting minute features."),
   ("Illustration", "Hand-drawn or digitally illustrated style. Clear outlines, stylized shading, expressive and artistic."),
   ("3D Render", "Photorealistic or stylized CGI. Crisp geometry, depth, shadows, and reflective surfaces with realistic rendering."),
   ("Fashion", "High-end editorial photography. Stylish, glamorous poses, bold makeup, controlled lighting, and modern aesthetic."),
   ("Minimalist", "Simple and uncluttered. Few elements, large negative space, flat or muted color palette, clean composition."),
   ("Moody", "Dark, atmospheric, and emotional. Strong shadows, high contrast, deep tones, cinematic ambiance."),
   ("Portrait", "Focus on the subject. Natural skin tones, shallow depth of field, close-up or waist-up framing, studio or natural lighting."),
   ("Stock Photo", "Professional, commercial-quality photo. Neutral subject matter, polished composition, business-friendly aesthetic."),
   ("Vibrant", "Bold, saturated colors. High contrast, energetic mood, eye-catching and lively presentation."),
   ("Pop Art", "Comic-book and pop-art inspired. Bold outlines, halftone patterns, flat vivid colors, high contrast, playful tone."),
   ("Vector", "Flat vector graphics. Smooth shapes, sharp edges, solid fills, and clean scalable style like logos or icons."),
   ("Watercolor", "Soft, fluid strokes with delicate blending and washed-out textures. Artistic and dreamy."),
   ("Oil Painting", "Rich, textured brushstrokes. Classic fine art look with deep color blending."),
   ("Charcoal", "Rough, sketchy textures with dark shading. Artistic, raw, dramatic effect."),
   ("Line Art", "Minimal monochrome outlines with clean, bold strokes. No shading, focus on form."),
   ("Anime", "Japanese animation style with vibrant colors, clean outlines, expressive features, and stylized proportions."),
   ("Cartoon", "Playful, exaggerated features, simplified shapes, bold outlines, and bright colors."),
   ("Pixel Art", "Retro digital art style. Small, pixel-based visuals resembling old-school video games."),
   ("Fantasy Art", "Epic fantasy scenes. Magical elements, mythical creatures, enchanted landscapes."),
   ("Surreal", "Dreamlike, bizarre imagery. Juxtaposes unexpected elements, bending reality."),
   ("Concept Art", "Imaginative, detailed artwork for games or films. Often moody and cinematic."),
   ("Cyberpunk", "Futuristic neon city vibes. High contrast, glowing lights, dark tones, sci-fi feel."),
   ("Steampunk", "Retro-futuristic style with gears, brass, Victorian aesthetics, and industrial design."),
   ("Neon Glow", "Bright neon outlines and glowing highlights. Futuristic, nightlife aesthetic."),
   ("Low Poly", "Simplified 3D style using flat geometric shapes and polygons."),
   ("Isometric", "3D look with isometric perspective. Often used for architecture, games, and diagrams."),
   ("Vintage", "Old-school, retro tones. Faded colors, film grain, sepia, or retro print feel."),
   ("Graffiti", "Urban street art style with bold colors, spray paint textures, and rebellious tone.")]

/-- Effective `STYLE_DESCRIPTIONS` (app.py lines 363-365): the dict literal is
empty — its body is just the placeholder comment `# ... (include your style
descriptions)` — and it shadows the full table defined at lines 322-361. -/
def STYLE_DESCRIPTIONS : List (String × String) := []

/-- The substitution marker inside every department template. -/
def USER_MARKER : String := "{USER_PROMPT}"

/-- The prompt composition performed by the Generate button handler
(app.py lines 381-383):

  refinement_prompt = PROMPT_TEMPLATES[dept].replace("{USER_PROMPT}", user_prompt)
  if style != "None":
      refinement_prompt += f"\n\nApply style: \x7bSTYLE_DESCRIPTIONS[style]\x7d"

A failed dict lookup raises `KeyError` in Python; here that is `none`. -/
def compose (dept user_prompt style : String) : Option (List Char) :=
  match PROMPT_TEMPLATES.lookup dept with
  | none => none
  | some t =>
    let base := pyReplace t.data USER_MARKER.data user_prompt.data
    if style ≠ "None" then
      match STYLE_DESCRIPTIONS.lookup style with
      | none => none
      | some d => some (base ++ ("\n\nApply style: " ++ d).data)
    else
      some base

/-- Text of the Marketing template before the substitution marker. -/
def Marketing_pre : String := "
You are a senior AI prompt engineer creating polished prompts for marketing and advertising visuals.

Task:
- Take the user’s raw input and turn it into a polished, professional, campaign-ready image prompt.
- Expand the idea with rich marketing-oriented details that make it visually persuasive.

When refining, include:
- Background & setting (modern, lifestyle, commercial, aspirational)
- Lighting & atmosphere (studio lights, golden hour, cinematic)
- Style (photorealistic, cinematic, product photography, lifestyle branding)
- Perspective & composition (wide shot, close-up, dramatic angles)
- Mood, tone & branding suitability (premium, sleek, aspirational)

Special Brand Rule:
- If the user asks for an image related to a specific brand, seamlessly add the brand’s tagline into the final image prompt.
- For **Dr. Reddy’s**, the correct tagline is: “Good Health Can’t Wait.”

Rules:
- Stay faithful to the user’s idea but elevate it for use in ads, social media, or presentations.
- Output **only** the final refined image prompt (no explanations, no extra text).

User raw input:
"

/-- Text of the Marketing template after the substitution marker. -/
def Marketing_suf : String := "


Refined marketing image prompt:
"

/-- Text of the Design template before the substitution marker. -/
def Design_pre : String := "
You are a senior AI prompt engineer supporting a creative design team.

Your job:
- Expand raw input into a visually inspiring, design-oriented image prompt.
- Add imaginative details about:
  • Artistic styles (minimalist, abstract, futuristic, flat, 3D render, watercolor, digital illustration)
  • Color schemes, palettes, textures, and patterns
  • Composition and balance (symmetry, negative space, creative framing)
  • Lighting and atmosphere (soft glow, vibrant contrast, surreal shading)
  • Perspective (isometric, top-down, wide shot, close-up)

Rules:
- Keep fidelity to the idea but make it highly creative and visually unique.
- Output only the final refined image prompt.

User’s raw prompt:
\""

/-- Text of the Design template after the substitution marker. -/
def Design_suf : String := "\"

Refined design image prompt:
"

/-- Text of the General template before the substitution marker. -/
def General_pre : String := "
You are an expert AI prompt engineer specialized in creating vivid and descriptive image prompts.

Your job:
- Expand the user’s input into a detailed, clear prompt for an image generation model.
- Add missing details such as:
  • Background and setting
  • Lighting and mood
  • Style and realism level
  • Perspective and composition

Rules:
- Stay true to the user’s intent.
- Keep language concise, descriptive, and expressive.
- Output only the final refined image prompt.

User’s raw prompt:
\""

/-- Text of the General template after the substitution marker. -/
def General_suf : String := "\"

Refined general image prompt:
"

/-- Text of the DPEX template before the substitution marker. -/
def DPEX_pre : String := "
You are a senior AI prompt engineer creating refined prompts for IT and technology-related visuals.

Your job:
- Transform the raw input into a detailed, professional, and technology-focused image prompt.
- Expand with contextual details about:
  • Technology environments (server rooms, data centers, cloud systems, coding workspaces)
  • Digital elements (network diagrams, futuristic UIs, holograms, cybersecurity visuals)
  • People in IT roles (developers, engineers, admins, tech support, collaboration)
  • Tone (innovative, technical, futuristic, professional)
  • Composition (screens, servers, code on monitors, abstract digital patterns)
  • Lighting and effects (LED glow, cyberpunk tones, neon highlights, modern tech ambiance)

Rules:
- Ensure images are suitable for IT presentations, product demos, training, technical documentation, and digital transformation campaigns.
- Stay true to the user’s intent but emphasize a technological and innovative look.
- Output only the final refined image prompt.

User’s raw prompt:
\""

/-- Text of the DPEX template after the substitution marker. -/
def DPEX_suf : String := "\"

Refined DPEX image prompt:
"

/-- Text of the HR template before the substitution marker. -/
def HR_pre : String := "
You are a senior AI prompt engineer creating refined prompts for human resources and workplace-related visuals.

Your job:
- Transform the raw input into a detailed, professional, and HR-focused image prompt.
- Expand with contextual details about:
  • Workplace settings (modern office, meeting rooms, open workspaces, onboarding sessions)
  • People interactions (interviews, teamwork, training, collaboration, diversity and inclusion)
  • Themes (employee engagement, professional growth, recruitment, performance evaluation)
  • Composition (groups in discussion, managers mentoring, collaborative workshops)
  • Lighting and tone (bright, welcoming, professional, inclusive)

Rules:
- Ensure images are suitable for HR presentations, recruitment campaigns, internal training, or employee engagement material.
- Stay true to the user’s intent but emphasize people, culture, and workplace positivity.
- Output only the final refined image prompt.

User’s raw prompt:
\""

/-- Text of the HR template after the substitution marker. -/
def HR_suf : String := "\"

Refined HR image prompt:
"

/-- Text of the Business template before the substitution marker. -/
def Business_pre : String := "
You are a senior AI prompt engineer creating refined prompts for business and corporate visuals.

Your job:
- Transform the raw input into a detailed, professional, and business-oriented image prompt.
- Expand with contextual details about:
  • Corporate settings (boardrooms, skyscrapers, modern offices, networking events)
  • Business activities (presentations, negotiations, brainstorming sessions, teamwork)
  • People (executives, entrepreneurs, consultants, diverse teams, global collaboration)
  • Tone (professional, ambitious, strategic, innovative)
  • Composition (formal meetings, handshake deals, conference tables, city skyline backgrounds)
  • Lighting and atmosphere (clean, modern, premium, professional)

Rules:
- Ensure images are suitable for corporate branding, investor decks, strategy sessions, or professional reports.
- Stay true to the user’s intent but emphasize professionalism, ambition, and success.
- Output only the final refined image prompt.

User’s raw prompt:
\""

/-- Text of the Business template after the substitution marker. -/
def Business_suf : String := "\"

Refined business image prompt:
"

/-- The split of each department template around `USER_MARKER`, keyed as in
`PROMPT_TEMPLATES`. -/
def TEMPLATE_SPLITS : List (String × String × String) :=
  [("Marketing", Marketing_pre, Marketing_suf),
   ("Design", Design_pre, Design_suf),
   ("General", General_pre, General_suf),
   ("DPEX", DPEX_pre, DPEX_suf),
   ("HR", HR_pre, HR_suf),
   ("Business", Business_pre, Business_suf)]

theorem compose_none_of_split (d pre suf : String)
    (hT : PROMPT_TEMPLATES.lookup d = some (pre ++ USER_MARKER ++ suf))
    (hpre : hitsWithin pre.data.length (pre.data ++ USER_MARKER.data ++ suf.data)
      USER_MARKER.data = false)
    (hsuf : occurs suf.data USER_MARKER.data = false) (U : String) :
    compose d U "None" = some (pre.data ++ U.data ++ suf.data) := by
  have h1 : compose d U "None"
      = some (pyReplace (pre ++ USER_MARKER ++ suf).data USER_MARKER.data U.data) := by
    unfold compose
    rw [hT]
    rfl
  have hdata : (pre ++ USER_MARKER ++ suf).data
      = pre.data ++ USER_MARKER.data ++ suf.data := by
    simp [String.data_append]
  rw [h1, hdata]
  exact congrArg some (pyReplace_split U.data suf.data (by decide) hsuf pre.data hpre)

/-- Claim C2: for every department key, composing with style "None" yields the
department template with the `{USER_PROMPT}` marker replaced by the user idea
verbatim; hence the result contains the idea verbatim and ends with the
template's fixed suffix.  Composition (`compose`) is a pure table lookup plus
text splice: no model or network call is involved in the definition. -/
theorem C2_compose_none_substitutes (U : String) (hU : U ≠ "") :
    (PROMPT_TEMPLATES.map Prod.fst = TEMPLATE_SPLITS.map fun x => x.1) ∧
    ∀ d pre suf, (d, pre, suf) ∈ TEMPLATE_SPLITS →
      compose d U "None" = some (pre.data ++ U.data ++ suf.data) ∧
      (∃ p s, compose d U "None" = some (p ++ U.data ++ s)) ∧
      (∃ p, compose d U "None" = some (p ++ suf.data)) := by
  refine ⟨rfl, ?_⟩
  intro d pre suf h
  simp only [TEMPLATE_SPLITS, List.mem_cons, List.not_mem_nil, or_false,
    Prod.mk.injEq] at h
  rcases h with hsp | hsp | hsp | hsp | hsp | hsp <;>
    obtain ⟨rfl, rfl, rfl⟩ := hsp
  · have he := compose_none_of_split "Marketing" Marketing_pre Marketing_suf rfl (by decide) (by decide) U
    exact ⟨he, ⟨_, _, he⟩, ⟨_, by rw [he, List.append_assoc]⟩⟩
  · have he := compose_none_of_split "Design" Design_pre Design_suf rfl (by decide) (by decide) U
    exact ⟨he, ⟨_, _, he⟩, ⟨_, by rw [he, List.append_assoc]⟩⟩
  · have he := compose_none_of_split "General" General_pre General_suf rfl (by decide) (by decide) U
    exact ⟨he, ⟨_, _, he⟩, ⟨_, by rw [he, List.append_assoc]⟩⟩
  · have he := compose_none_of_split "DPEX" DPEX_pre DPEX_suf rfl (by decide) (by decide) U
    exact ⟨he, ⟨_, _, he⟩, ⟨_, by rw [he, List.append_assoc]⟩⟩
  · have he := compose_none_of_split "HR" HR_pre HR_suf rfl (by decide) (by decide) U
    exact ⟨he, ⟨_, _, he⟩, ⟨_, by rw [he, List.append_assoc]⟩⟩
  · have he := compose_none_of_split "Business" Business_pre Business_suf rfl (by decide) (by decide) U
    exact ⟨he, ⟨_, _, he⟩, ⟨_, by rw [he, List.append_assoc]⟩⟩

/-- Witness for C2 at the concrete idea "a red bicycle" and department
"General". -/
theorem C2_compose_none_substitutes_witness :
    compose "General" "a red bicycle" "None"
      = some (General_pre.data ++ "a red bicycle".data ++ General_suf.data) :=
  ((C2_compose_none_substitutes "a red bicycle" (by decide)).2
    "General" General_pre General_suf (by simp [TEMPLATE_SPLITS])).1

/-- Claim C1 (code bug): the spec says that for style keys other than the
"None" sentinel the composed text is the unstyled text with the style's
description appended.  In the code, the style table is shadowed by the empty
rebinding of `STYLE_DESCRIPTIONS` at line 363, so for every such key (for
example "Cinematic", a key of the intended table at lines 322-361) the
handler's `STYLE_DESCRIPTIONS[style]` lookup raises `KeyError` (modelled as
`none`) instead of appending, while the unstyled composition succeeds. -/
theorem C1_styled_compose_keyerror :
    STYLE_DESCRIPTIONS = [] ∧
    STYLE_DESCRIPTIONS_v1.lookup "Cinematic"
      = some "Film-style composition with professional lighting. Wide dynamic range, dramatic highlights, storytelling feel." ∧
    STYLE_DESCRIPTIONS.lookup "Cinematic" = none ∧
    compose "General" "a red bicycle" "Cinematic" = none ∧
    (compose "General" "a red bicycle" "None").isSome = true :=
  ⟨rfl, rfl, rfl, rfl, rfl⟩

/-- One content part of a text-model response.  `text = none` models a part
without a `text` attribute (the access raises, and app.py line 46 catches). -/
structure GPart where
  text : Option String

/-- A candidate's content; `parts = none` models a missing `parts` attribute
(the access raises, caught). -/
structure GContent where
  parts : Option (List GPart)

/-- One entry of a response's candidate list; `content = none` models a
missing `content` attribute (the access raises, caught). -/
structure GCandidate where
  content : Option GContent

/-- A text-model response as probed by `safe_get_enhanced_text` (app.py lines
38-47).  `text = none` models a missing (or falsy) `text` attribute and
`some ""` a present-but-empty one; `candidates = none` a missing `candidates`
attribute; `str_repr` is the generic string conversion `str(resp)`. -/
structure TextResp where
  text : Option String
  candidates : Option (List GCandidate)
  str_repr : String

/-- The guarded `try: return resp.candidates[0].content.parts[0].text` body
(app.py line 44): any missing attribute or empty `parts` list raises inside
the `try`, modelled as `none`. -/
def candidate_path_text : List GCandidate → Option String
  | [] => none
  | c :: _ =>
    match c.content with
    | none => none
    | some ct =>
      match ct.parts with
      | none => none
      | some [] => none
      | some (p :: _) => p.text

/-- Tiers 2 and 3 of `safe_get_enhanced_text`: the candidate walk guarded by
`hasattr(resp, "candidates") and resp.candidates`, falling back to
`str(resp)`. -/
def text_fallback (resp : TextResp) : String :=
  match resp.candidates with
  | some (c :: cs) =>
    match candidate_path_text (c :: cs) with
    | some t => t
    | none => resp.str_repr
  | _ => resp.str_repr

/-- Model of `safe_get_enhanced_text` (app.py lines 38-47).  Tier 1 requires the
direct `text` attribute to be present and truthy (non-empty). -/
def safe_get_enhanced_text (resp : TextResp) : String :=
  match resp.text with
  | some t => if t ≠ "" then t else text_fallback resp
  | none => text_fallback resp

theorem text_fallback_of_no_candidates (resp : TextResp)
    (h : resp.candidates = none) : text_fallback resp = resp.str_repr := by
  simp [text_fallback, h]

theorem text_fallback_cases (resp : TextResp) :
    text_fallback resp = resp.str_repr ∨
      ∃ cs t, resp.candidates = some cs ∧ candidate_path_text cs = some t ∧
        text_fallback resp = t := by
  cases hc : resp.candidates with
  | none => exact Or.inl (text_fallback_of_no_candidates resp hc)
  | some cs =>
    cases cs with
    | nil => left; simp [text_fallback, hc]
    | cons c cs' =>
      cases hp : candidate_path_text (c :: cs') with
      | none => left; simp [text_fallback, hc, hp]
      | some t =>
        right
        exact ⟨c :: cs', t, rfl, hp, by simp [text_fallback, hc, hp]⟩

/-- Claim C3: `safe_get_enhanced_text` is total — on every input object it
returns the string of one of its three tiers, and on a well-formed object
exposing neither a `text` nor a `candidates` attribute it returns the generic
string conversion `str(resp)` (so it never raises). -/
theorem C3_safe_get_never_fails (resp : TextResp) :
    (resp.text = none → resp.candidates = none →
      safe_get_enhanced_text resp = resp.str_repr) ∧
    (safe_get_enhanced_text resp = resp.str_repr ∨
      (∃ t, resp.text = some t ∧ t ≠ "" ∧ safe_get_enhanced_text resp = t) ∨
      (∃ cs t, resp.candidates = some cs ∧ candidate_path_text cs = some t ∧
        safe_get_enhanced_text resp = t)) := by
  constructor
  · intro h1 h2
    simp [safe_get_enhanced_text, h1, text_fallback_of_no_candidates resp h2]
  · cases hx : resp.text with
    | none =>
      have hs : safe_get_enhanced_text resp = text_fallback resp := by
        simp [safe_get_enhanced_text, hx]
      rcases text_fallback_cases resp with h | ⟨cs, t, h1, h2, h3⟩
      · exact Or.inl (hs.trans h)
      · exact Or.inr (Or.inr ⟨cs, t, h1, h2, hs.trans h3⟩)
    | some t =>
      by_cases ht : t = ""
      · have hs : safe_get_enhanced_text resp = text_fallback resp := by
          simp [safe_get_enhanced_text, hx, ht]
        rcases text_fallback_cases resp with h | ⟨cs, u, h1, h2, h3⟩
        · exact Or.inl (hs.trans h)
        · exact Or.inr (Or.inr ⟨cs, u, h1, h2, hs.trans h3⟩)
      · refine Or.inr (Or.inl ⟨t, rfl, ht, ?_⟩)
        simp [safe_get_enhanced_text, hx, ht]

/-- Witness for C3: an object with no recognized field at all yields its
string conversion. -/
theorem C3_safe_get_never_fails_witness :
    safe_get_enhanced_text ⟨none, none, "<Response object>"⟩ = "<Response object>" :=
  (C3_safe_get_never_fails ⟨none, none, "<Response object>"⟩).1 rfl rfl

/-- Claim C10 (implicit): the non-emptiness guard applies only to the direct
`text` field.  When the direct field is absent (or empty) and the first
candidate's first part carries an empty-string `text`, the function returns
the empty string instead of falling through to the `str(resp)` tier. -/
theorem C10_empty_candidate_text_returned :
    safe_get_enhanced_text ⟨none, some [⟨some ⟨some [⟨some ""⟩]⟩⟩], "STR"⟩ = "" ∧
    safe_get_enhanced_text ⟨some "", some [⟨some ⟨some [⟨some ""⟩]⟩⟩], "STR"⟩ = "" :=
  ⟨rfl, rfl⟩


/-- The nested `image` object probed by `get_image_bytes_from_genobj`.  Each
field is `none` when the attribute is absent (`hasattr` false). -/
structure NestedImage where
  image_bytes : Option (List Nat)
  _image_bytes : Option (List Nat)

/-- Attributes of a non-bytes Imagen result element.  `image = none` models
an absent `image` attribute or a falsy (`None`) one — the guard at line 56 is
`hasattr(gen_obj, "image") and gen_obj.image`. -/
structure GenObjAttrs where
  image_bytes : Option (List Nat)
  _image_bytes : Option (List Nat)
  image : Option NestedImage

/-- One element of the Imagen result list: either already a raw `bytes` /
`bytearray` blob or an attribute-bearing object. -/
inductive GenObj where
  | raw (b : List Nat)
  | obj (o : GenObjAttrs)

/-- Model of `get_image_bytes_from_genobj` (app.py lines 49-60).  The attribute loops
at lines 53-55 and 57-59 return `getattr(gen_obj, attr)` as soon as
`hasattr(gen_obj, attr)` holds — with no emptiness check on the value. -/
def get_image_bytes_from_genobj : GenObj → Option (List Nat)
  | .raw b => some b
  | .obj o =>
    match o.image_bytes with
    | some v => some v
    | none =>
      match o._image_bytes with
      | some v => some v
      | none =>
        match o.image with
        | some img =>
          match img.image_bytes with
          | some v => some v
          | none =>
            match img._image_bytes with
            | some v => some v
            | none => none
        | none => none

/-- Claim C6: the generation-path extractor is the identity on raw blobs, and
returns `None` (never raising) on an object exposing none of the recognized
attributes. -/
theorem C6_genobj_identity_and_absent (b : List Nat) (o : GenObjAttrs)
    (h1 : o.image_bytes = none) (h2 : o._image_bytes = none)
    (h3 : o.image = none) :
    get_image_bytes_from_genobj (GenObj.raw b) = some b ∧
    get_image_bytes_from_genobj (GenObj.obj o) = none := by
  constructor
  · rfl
  · simp [get_image_bytes_from_genobj, h1, h2, h3]

/-- Witness for C6 at a concrete blob and a concrete attribute-less object. -/
theorem C6_genobj_identity_and_absent_witness :
    get_image_bytes_from_genobj (GenObj.raw [137, 80, 78, 71]) = some [137, 80, 78, 71] ∧
    get_image_bytes_from_genobj (GenObj.obj ⟨none, none, none⟩) = none :=
  C6_genobj_identity_and_absent [137, 80, 78, 71] ⟨none, none, none⟩ rfl rfl rfl

/-- Counterexample to Claim C7: for an object whose top-level `image_bytes`
is present but empty and whose nested `image` object carries non-empty bytes,
the extractor returns the empty value (the line 53-55 loop has no
non-emptiness check) instead of proceeding to the nested probe. -/
theorem C7_empty_top_level_counterexample :
    get_image_bytes_from_genobj
      (GenObj.obj ⟨some [], none, some ⟨some [1, 2, 3], none⟩⟩) = some [] ∧
    get_image_bytes_from_genobj
      (GenObj.obj ⟨some [], none, some ⟨some [1, 2, 3], none⟩⟩) ≠ some [1, 2, 3] :=
  ⟨rfl, by decide⟩

/-- Claim C7 as amended: the top-level probe for `image_bytes` (or
`_image_bytes`) returns the attribute's value whenever the attribute is
present — even when the value is empty — and the nested `image` probe is
reached only when both top-level attributes are absent. -/
theorem C7_top_level_probe_amended (o : GenObjAttrs) :
    (∀ v, o.image_bytes = some v →
      get_image_bytes_from_genobj (GenObj.obj o) = some v) ∧
    (∀ v, o.image_bytes = none → o._image_bytes = some v →
      get_image_bytes_from_genobj (GenObj.obj o) = some v) := by
  constructor
  · intro v hv
    simp [get_image_bytes_from_genobj, hv]
  · intro v h1 h2
    simp [get_image_bytes_from_genobj, h1, h2]

/-- Witness for the amended C7: an empty top-level value is returned as-is. -/
theorem C7_top_level_probe_amended_witness :
    get_image_bytes_from_genobj
      (GenObj.obj ⟨some [], none, some ⟨some [1, 2, 3], none⟩⟩) = some [] :=
  (C7_top_level_probe_amended ⟨some [], none, some ⟨some [1, 2, 3], none⟩⟩).1 [] rfl


/-- Inline payload blob (`part.inline_data`); `data` is `inline_data.data`,
raw bytes as naturals. -/
structure Blob where
  data : List Nat

/-- One part of an edit-call response.  `inline_data = none` models a missing
or falsy (`None`) `inline_data` — the guard is
`hasattr(part, "inline_data") and part.inline_data`. -/
structure EPart where
  inline_data : Option Blob

/-- Content of a candidate (`candidate.content`); `parts = none` models a missing `parts` attribute
(guard `hasattr(candidate.content, "parts")`). -/
structure EContent where
  parts : Option (List EPart)

/-- One candidate of an edit-call response; `content = none` models a missing
`content` attribute (guard `hasattr(candidate, "content")`). -/
structure ECandidate where
  content : Option EContent

/-- An edit-call response as probed by `run_nano_banana_edit` and
`extract_image_from_response`: each field is `none` when the attribute is
absent. -/
structure EditResp where
  candidates : Option (List ECandidate)
  parts : Option (List EPart)
  text : Option String

/-- The parts walk `for part in parts: if hasattr(part, "inline_data") and
part.inline_data: return part.inline_data.data` — the first truthy inline
payload wins. -/
def first_inline_in_parts : List EPart → Option (List Nat)
  | [] => none
  | p :: rest =>
    match p.inline_data with
    | some b => some b.data
    | none => first_inline_in_parts rest

/-- The candidate walk shared by app.py lines 88-93 and 146-151: for each
candidate with a `content.parts` list, return the first truthy inline
payload. -/
def first_inline_in_candidates : List ECandidate → Option (List Nat)
  | [] => none
  | c :: rest =>
    match c.content with
    | some ct =>
      match ct.parts with
      | some ps =>
        match first_inline_in_parts ps with
        | some d => some d
        | none => first_inline_in_candidates rest
      | none => first_inline_in_candidates rest
    | none => first_inline_in_candidates rest

/-- Python `s.split(sep)` for a non-empty separator, on char lists:
non-overlapping occurrences, scanned left to right.  The scan consumes at
least one character per step, so it is written with a structural fuel
argument bounded below by the list length (this keeps the definition
reducible by evaluation). -/
def pySplitF : Nat → List Char → List Char → List (List Char)
  | 0, _, _ => [[]]
  | _ + 1, [], _ => [[]]
  | f + 1, c :: rest, sep =>
    if sep ≠ [] ∧ sep.isPrefixOf (c :: rest) then
      [] :: pySplitF f ((c :: rest).drop sep.length) sep
    else
      match pySplitF f rest sep with
      | [] => [[c]]
      | seg :: t => (c :: seg) :: t

/-- Python `s.split(sep)`: run the fuelled scan with enough fuel. -/
def pySplit (l sep : List Char) : List (List Char) :=
  pySplitF l.length l sep

/-- Value of one base64 alphabet character. -/
def b64val (c : Char) : Option Nat :=
  if 'A' ≤ c ∧ c ≤ 'Z' then some (c.toNat - 65)
  else if 'a' ≤ c ∧ c ≤ 'z' then some (c.toNat - 71)
  else if '0' ≤ c ∧ c ≤ '9' then some (c.toNat + 4)
  else if c = '+' then some 62
  else if c = '/' then some 63
  else none

/-- Decode a stream of base64 quanta (already filtered to alphabet characters
and padding).  Each complete group of four yields 1-3 bytes depending on
padding, as in CPython's non-strict `a2b_base64` (which keeps decoding after
a padded quantum); a leftover of fewer than four characters or misplaced
padding is `binascii.Error`, modelled as `none`. -/
def b64chunks : List Char → Option (List Nat)
  | [] => some []
  | c1 :: c2 :: c3 :: c4 :: rest =>
    match b64val c1, b64val c2 with
    | some v1, some v2 =>
      if c3 = '=' then
        if c4 = '=' then (b64chunks rest).map fun bs => (v1 * 4 + v2 / 16) :: bs
        else none
      else
        match b64val c3 with
        | some v3 =>
          if c4 = '=' then
            (b64chunks rest).map fun bs =>
              (v1 * 4 + v2 / 16) :: (v2 % 16 * 16 + v3 / 4) :: bs
          else
            match b64val c4 with
            | some v4 =>
              (b64chunks rest).map fun bs =>
                (v1 * 4 + v2 / 16) :: (v2 % 16 * 16 + v3 / 4) :: (v3 % 4 * 64 + v4) :: bs
            | none => none
        | none => none
    | _, _ => none
  | _ => none

/-- Model of `base64.b64decode` with default validation (app.py line 168): characters
neither in the base64 alphabet nor padding are discarded before decoding. -/
def b64decode (s : List Char) : Option (List Nat) :=
  b64chunks (s.filter fun c => (b64val c).isSome || c = '=')

/-- Model of `extract_image_from_response` (app.py lines 143-172): the candidates walk
(no truthiness check on `candidates` here), then the flat `parts` walk, then
the data-URI fallback on `response.text` modelling
`text_content.split("data:image/png;base64,")[1].split(CHR34)[0]` (CHR34 the
double quote) and `base64.b64decode`; the bare `except` catches an IndexError
from `[1]` as well as any decode error (`none`). -/
def extract_image_from_response (response : EditResp) : Option (List Nat) :=
  match (match response.candidates with
         | some cs => first_inline_in_candidates cs
         | none => none) with
  | some d => some d
  | none =>
    match (match response.parts with
           | some ps => first_inline_in_parts ps
           | none => none) with
    | some d => some d
    | none =>
      match response.text with
      | some tc =>
        if occurs tc.data "data:image".data then
          match (pySplit tc.data "data:image/png;base64,".data).get? 1 with
          | some after =>
            match pySplit after ['\x22'] with
            | seg :: _ => b64decode seg
            | [] => none
          | none => none
        else none
      | none => none

/-- Fixture: a response carrying payload `d` under the
candidates → content → parts shape. -/
def candidates_fixture (d : List Nat) : EditResp :=
  ⟨some [⟨some ⟨some [⟨some ⟨d⟩⟩]⟩⟩], none, none⟩

/-- Fixture: a response carrying payload `d` under the flatter
parts-on-response shape. -/
def flat_parts_fixture (d : List Nat) : EditResp :=
  ⟨none, some [⟨some ⟨d⟩⟩], none⟩

/-- Claim C4: for the same non-empty inline payload, the nested
candidates shape and the flat parts shape extract identical bytes. -/
theorem C4_nested_and_flat_shapes_agree (d : List Nat) (hd : d ≠ []) :
    extract_image_from_response (candidates_fixture d) = some d ∧
    extract_image_from_response (flat_parts_fixture d) = some d ∧
    extract_image_from_response (candidates_fixture d)
      = extract_image_from_response (flat_parts_fixture d) :=
  ⟨rfl, rfl, rfl⟩

/-- Witness for C4 at the payload bytes of "hello". -/
theorem C4_nested_and_flat_shapes_agree_witness :
    extract_image_from_response (candidates_fixture [104, 101, 108, 108, 111])
      = some [104, 101, 108, 108, 111] ∧
    extract_image_from_response (flat_parts_fixture [104, 101, 108, 108, 111])
      = some [104, 101, 108, 108, 111] ∧
    extract_image_from_response (candidates_fixture [104, 101, 108, 108, 111])
      = extract_image_from_response (flat_parts_fixture [104, 101, 108, 108, 111]) :=
  C4_nested_and_flat_shapes_agree [104, 101, 108, 108, 111] (by decide)

/-- Claim C5: a response with no candidates and no parts whose text contains
the fragment `...data:image/png;base64,aGVsbG8=...` decodes to exactly the
ASCII bytes of "hello". -/
theorem C5_data_uri_roundtrip :
    extract_image_from_response
      ⟨none, none, some "...data:image/png;base64,aGVsbG8=..."⟩
      = some [104, 101, 108, 108, 111] := by decide


/-- Model of `run_nano_banana_edit` (app.py lines 62-106), parameterized by the
outcome of the `NANO_BANANA.generate_content` call (the `Part` and
edit-instruction assembly before the call is pure string building and cannot
raise; a raising call is `Except.error` with the exception text).  Returns
the extracted bytes, if any, paired with the `st.error` message emitted, if
any.  Method 1 here requires `response.candidates` to be truthy (non-empty),
unlike `extract_image_from_response`. -/
def run_nano_banana_edit (callResult : Except String EditResp) :
    Option (List Nat) × Option String :=
  match callResult with
  | .error e => (none, some ("❌ Nano Banana editing error: " ++ e))
  | .ok response =>
    match (match response.candidates with
           | some (c :: cs) => first_inline_in_candidates (c :: cs)
           | _ => none) with
    | some d => (some d, none)
    | none =>
      match (match response.parts with
             | some ps => first_inline_in_parts ps
             | none => none) with
      | some d => (some d, none)
      | none => (none, some "❌ No edited image found in Nano Banana response")

/-- Python ASCII whitespace for `str.strip()`. -/
def isPySpace (c : Char) : Bool :=
  c = ' ' || c = '\t' || c = '\n' || c = '\x0d' || c = '\x0c' || c = '\x0b'

/-- Python `s.strip()` (the app only ever strips ASCII whitespace). -/
def pyStrip (s : String) : String :=
  ⟨((s.data.dropWhile isPySpace).reverse.dropWhile isPySpace).reverse⟩

/-- Python `s.lower()`, mapped characterwise (the department and style keys
are ASCII, where `str.lower()` and `Char.toLower` agree). -/
def pyLower (s : String) : String := ⟨s.data.map Char.toLower⟩

/-- One entry of the in-memory history
`st.session_state.generated_images`. -/
structure SavedImage where
  filename : String
  content : List Nat
  prompt : String

/-- The observable effects of one run of the Generate button handler: the
session history afterwards, the `st.error` / `st.warning` / `st.info`
messages, whether `st.stop()` aborted the run, and the filesystem writes
performed (the handler, app.py lines 376-435, contains no file output at
all, so this trace is always empty; bytes are only displayed and offered via
`st.download_button`). -/
structure GenOutcome where
  history : List SavedImage
  errors : List String
  warnings : List String
  infos : List String
  stopped : Bool
  diskWrites : List (String × List Nat)

/-- The per-index loop of the Generate handler (app.py lines 398-435):
`resp.images[i]` raising IndexError is caught by the inner `try` and warned;
falsy extracted bytes (None or empty) are warned and skipped; otherwise the
image is appended to the history under the dept_style_timestamp_index
filename.  Display and download-button effects are omitted. -/
def gen_image_loop (dept style now eprompt : String) (images : List GenObj) :
    Nat → Nat → List SavedImage × List String
  | _, 0 => ([], [])
  | i, n + 1 =>
    match images.get? i with
    | none =>
      let r := gen_image_loop dept style now eprompt images (i + 1) n
      (r.1, ("⚠️ Unable to process image " ++ toString i
        ++ ": list index out of range") :: r.2)
    | some gobj =>
      match get_image_bytes_from_genobj gobj with
      | none =>
        let r := gen_image_loop dept style now eprompt images (i + 1) n
        (r.1, ("Could not extract image " ++ toString i) :: r.2)
      | some b =>
        if b = [] then
          let r := gen_image_loop dept style now eprompt images (i + 1) n
          (r.1, ("Could not extract image " ++ toString i) :: r.2)
        else
          let filename := pyLower dept ++ "_" ++ pyLower style ++ "_" ++ now
            ++ "_" ++ toString i ++ ".png"
          let r := gen_image_loop dept style now eprompt images (i + 1) n
          (⟨filename, b, eprompt⟩ :: r.1, r.2)

/-- The Generate button handler (app.py lines 376-435), parameterized by the
outcomes of the two external calls.  `none` models an uncaught exception
ending the script run: a `KeyError` from the template/style lookups (lines
381-383) or the text-refinement call raising (line 384 is outside any
`try`).  The timestamp is passed in as `now`. -/
def generate_button_handler (dept style user_prompt : String) (num_images : Nat)
    (now : String) (textResult : Except String TextResp)
    (imagenResult : Except String (List GenObj))
    (history : List SavedImage) : Option GenOutcome :=
  if pyStrip user_prompt = "" then
    some ⟨history, [], ["Please enter a prompt."], [], false, []⟩
  else
    match compose dept user_prompt style with
    | none => none
    | some _refinement_prompt =>
      match textResult with
      | .error _ => none
      | .ok tresp =>
        let eprompt := pyStrip (safe_get_enhanced_text tresp)
        let info := "🔮 Enhanced Prompt:\n\n" ++ eprompt
        match imagenResult with
        | .error e =>
          some ⟨history, ["⚠️ Imagen error: " ++ e], [], [info], true, []⟩
        | .ok images =>
          let r := gen_image_loop dept style now eprompt images 0 num_images
          some ⟨history ++ r.1, [], r.2, [info], false, []⟩

/-- The `st.error` message of app.py lines 521-528, shown when no edit
variation succeeded. -/
def NANO_FAIL_MSG : String :=
  "\n                        ❌ Nano Banana editing failed. This could be because:\n                        1. The model doesn\x27t support direct image editing yet\n                        2. The edit instructions were too complex\n                        3. Temporary API issue\n                        \n                        Try simpler edits or use the Generate section with modified prompts.\n                        "

/-- The observable effects of one run of the Apply Nano Banana Edit handler
(app.py lines 472-528): the edited byte blobs collected, the filenames the
versions are displayed and offered under, messages, the history afterwards
(the handler itself never appends — the per-version Save buttons are
separate click events), and the filesystem writes performed (none occur in
the source). -/
structure EditOutcome where
  editedVersions : List (List Nat)
  displayedFilenames : List String
  errors : List String
  warnings : List String
  history : List SavedImage
  diskWrites : List (String × List Nat)

/-- The `for i in range(num_edits)` loop (app.py lines 479-487) for the
Standard Edit method: one `run_nano_banana_edit` call per variation
(outcomes given by `callResults`), collecting the successful bytes and the
error messages the calls emit. -/
def edit_variation_loop : List (Except String EditResp) →
    List (List Nat) × List String
  | [] => ([], [])
  | r :: rs =>
    let res := run_nano_banana_edit r
    let rest := edit_variation_loop rs
    ((match res.1 with
      | some b => b :: rest.1
      | none => rest.1),
     (match res.2 with
      | some m => m :: rest.2
      | none => rest.2))

/-- The Apply Nano Banana Edit handler (app.py lines 472-528) for the
Standard Edit method, with one call outcome per requested variation.
Successful versions are displayed and offered for download as
`nano_edited_v` ++ version number ++ `_` ++ the source image's filename; if
none succeeded, the fixed failure message is shown.  Balloons, success
toasts and image display are omitted; no history append and no file write
occurs in this handler. -/
def nano_edit_handler (edit_prompt : String) (img_name : String)
    (callResults : List (Except String EditResp))
    (history : List SavedImage) : EditOutcome :=
  if pyStrip edit_prompt = "" then
    ⟨[], [], [], ["Please enter edit instructions."], history, []⟩
  else
    let r := edit_variation_loop callResults
    if r.1 = [] then
      ⟨[], [], r.2 ++ [NANO_FAIL_MSG], [], history, []⟩
    else
      ⟨r.1,
       (List.range r.1.length).map
         (fun idx => "nano_edited_v" ++ toString (idx + 1) ++ "_" ++ img_name),
       r.2, [], history, []⟩


/-- Claim C8: when the image-generation call raises, the handler catches it
at the call site, surfaces an error message containing the underlying text,
stops the run, and leaves the history exactly as before; when the
image-editing call raises, `run_nano_banana_edit` catches it and surfaces
the text, and the edit handler leaves the history unchanged with no edited
version produced. -/
theorem C8_call_failures_abort_without_state
    (dept style U EP now e1 e2 img_name : String) (n : Nat) (tresp : TextResp)
    (h : List SavedImage) (hU : pyStrip U ≠ "")
    (hc : (compose dept U style).isSome = true) (hEP : pyStrip EP ≠ "") :
    (∃ o, generate_button_handler dept style U n now (Except.ok tresp)
        (Except.error e1) h = some o ∧
      o.history = h ∧ ("⚠️ Imagen error: " ++ e1) ∈ o.errors ∧
      o.stopped = true ∧ o.diskWrites = []) ∧
    run_nano_banana_edit (Except.error e2)
      = (none, some ("❌ Nano Banana editing error: " ++ e2)) ∧
    (nano_edit_handler EP img_name [Except.error e2] h).history = h ∧
    (nano_edit_handler EP img_name [Except.error e2] h).editedVersions = [] ∧
    ("❌ Nano Banana editing error: " ++ e2)
      ∈ (nano_edit_handler EP img_name [Except.error e2] h).errors := by
  obtain ⟨rp, hrp⟩ := Option.isSome_iff_exists.mp hc
  have hgen : generate_button_handler dept style U n now (Except.ok tresp)
      (Except.error e1) h
      = some ⟨h, ["⚠️ Imagen error: " ++ e1], [],
          ["🔮 Enhanced Prompt:\n\n" ++ pyStrip (safe_get_enhanced_text tresp)],
          true, []⟩ := by
    unfold generate_button_handler
    rw [if_neg hU, hrp]
  have hedit : nano_edit_handler EP img_name [Except.error e2] h
      = ⟨[], [], ("❌ Nano Banana editing error: " ++ e2) :: [NANO_FAIL_MSG],
          [], h, []⟩ := by
    unfold nano_edit_handler
    rw [if_neg hEP]
    rfl
  refine ⟨⟨_, hgen, rfl, ?_, rfl, rfl⟩, rfl, ?_, ?_, ?_⟩
  · simp
  · rw [hedit]
  · rw [hedit]
  · rw [hedit]
    simp

/-- Witness for C8: a concrete failing generation call surfaces the error,
stops, and leaves the non-empty prior history intact. -/
theorem C8_call_failures_abort_without_state_witness :
    pyStrip "a red bicycle" ≠ "" ∧
    (∃ o, generate_button_handler "General" "None" "a red bicycle" 2
        "20260101_120000" (Except.ok ⟨none, none, "an enhanced prompt"⟩)
        (Except.error "quota exceeded") [⟨"a.png", [1], "p"⟩] = some o ∧
      o.history = [⟨"a.png", [1], "p"⟩] ∧
      ("⚠️ Imagen error: " ++ "quota exceeded") ∈ o.errors ∧
      o.stopped = true ∧ o.diskWrites = []) :=
  ⟨by decide,
   (C8_call_failures_abort_without_state "General" "None" "a red bicycle"
     "make the sky blue" "20260101_120000" "quota exceeded" "socket closed"
     "x.png" 2 ⟨none, none, "an enhanced prompt"⟩ [⟨"a.png", [1], "p"⟩]
     (by decide) rfl (by decide)).1⟩

/-- Counterexample to Claim C9: a successful generation run and a successful
edit run both produce images, yet neither handler performs any filesystem
write (the write trace is empty — app.py lines 398-435 and 472-528 never
open or write a file); generated bytes go to the in-memory history and a
download button, edited bytes to a display and a download button, so no PNG
file is written under any output area. -/
theorem C9_no_file_write_counterexample :
    (∃ o, generate_button_handler "General" "None" "a red bicycle" 1
        "20260101_120000" (Except.ok ⟨none, none, "an enhanced prompt"⟩)
        (Except.ok [GenObj.raw [137, 80, 78, 71]]) [] = some o ∧
      o.history ≠ [] ∧ o.diskWrites = []) ∧
    (nano_edit_handler "make the sky blue" "general_none_20260101_120000_0.png"
        [Except.ok (flat_parts_fixture [9, 9])] []).editedVersions ≠ [] ∧
    (nano_edit_handler "make the sky blue" "general_none_20260101_120000_0.png"
        [Except.ok (flat_parts_fixture [9, 9])] []).diskWrites = [] := by
  refine ⟨⟨⟨[⟨"general_none_20260101_120000_0.png", [137, 80, 78, 71],
      "an enhanced prompt"⟩], [], [],
      ["🔮 Enhanced Prompt:\n\nan enhanced prompt"], false, []⟩,
    rfl, List.cons_ne_nil _ _, rfl⟩, ?_, rfl⟩
  show ([[9, 9]] : List (List Nat)) ≠ []
  exact List.cons_ne_nil _ _

/-- Claim C9 as amended: every successfully produced image is recorded under
a PNG filename — a generated image is appended to the in-memory history named
by the department/style/timestamp/index pattern, and an edited image is
displayed and offered for download named by the edit-version prefix plus the
source image's filename — and neither handler writes any file to disk. -/
theorem C9_filenames_and_no_disk_amended
    (dept style U EP now img_name : String) (tresp : TextResp)
    (h : List SavedImage) (b d : List Nat) (hU : pyStrip U ≠ "")
    (hc : (compose dept U style).isSome = true) (hb : b ≠ [])
    (hEP : pyStrip EP ≠ "") :
    (∃ o, generate_button_handler dept style U 1 now (Except.ok tresp)
        (Except.ok [GenObj.raw b]) h = some o ∧
      o.history = h ++ [⟨pyLower dept ++ "_" ++ pyLower style ++ "_" ++ now
        ++ "_" ++ toString 0 ++ ".png", b,
        pyStrip (safe_get_enhanced_text tresp)⟩] ∧
      o.diskWrites = []) ∧
    (nano_edit_handler EP img_name [Except.ok (flat_parts_fixture d)] h).editedVersions
      = [d] ∧
    (nano_edit_handler EP img_name [Except.ok (flat_parts_fixture d)] h).displayedFilenames
      = ["nano_edited_v" ++ toString (0 + 1) ++ "_" ++ img_name] ∧
    (nano_edit_handler EP img_name [Except.ok (flat_parts_fixture d)] h).history = h ∧
    (nano_edit_handler EP img_name [Except.ok (flat_parts_fixture d)] h).diskWrites
      = [] := by
  obtain ⟨rp, hrp⟩ := Option.isSome_iff_exists.mp hc
  have hloop : gen_image_loop dept style now (pyStrip (safe_get_enhanced_text tresp))
      [GenObj.raw b] 0 1
      = ([⟨pyLower dept ++ "_" ++ pyLower style ++ "_" ++ now ++ "_"
          ++ toString 0 ++ ".png", b, pyStrip (safe_get_enhanced_text tresp)⟩],
         []) := by
    simp [gen_image_loop, get_image_bytes_from_genobj, List.get?, hb]
  have hgen : generate_button_handler dept style U 1 now (Except.ok tresp)
      (Except.ok [GenObj.raw b]) h
      = some ⟨h ++ [⟨pyLower dept ++ "_" ++ pyLower style ++ "_" ++ now ++ "_"
          ++ toString 0 ++ ".png", b, pyStrip (safe_get_enhanced_text tresp)⟩],
          [], [],
          ["🔮 Enhanced Prompt:\n\n" ++ pyStrip (safe_get_enhanced_text tresp)],
          false, []⟩ := by
    unfold generate_button_handler
    rw [if_neg hU, hrp]
    simp only [hloop]
  have hedit : nano_edit_handler EP img_name [Except.ok (flat_parts_fixture d)] h
      = ⟨[d], ["nano_edited_v" ++ toString (0 + 1) ++ "_" ++ img_name], [],
          [], h, []⟩ := by
    unfold nano_edit_handler
    rw [if_neg hEP]
    rfl
  exact ⟨⟨_, hgen, rfl, rfl⟩, by rw [hedit], by rw [hedit], by rw [hedit],
    by rw [hedit]⟩

/-- Witness for the amended C9 at concrete inputs. -/
theorem C9_filenames_and_no_disk_amended_witness :
    pyStrip "a red bicycle" ≠ "" ∧ ([137, 80] : List Nat) ≠ [] ∧
    (∃ o, generate_button_handler "General" "None" "a red bicycle" 1
        "20260101_120000" (Except.ok ⟨none, none, "an enhanced prompt"⟩)
        (Except.ok [GenObj.raw [137, 80]]) [] = some o ∧
      o.history = [] ++ [⟨pyLower "General" ++ "_" ++ pyLower "None" ++ "_"
        ++ "20260101_120000" ++ "_" ++ toString 0 ++ ".png", [137, 80],
        pyStrip (safe_get_enhanced_text ⟨none, none, "an enhanced prompt"⟩)⟩] ∧
      o.diskWrites = []) :=
  ⟨by decide, by decide,
   (C9_filenames_and_no_disk_amended "General" "None" "a red bicycle"
     "make the sky blue" "20260101_120000" "img.png"
     ⟨none, none, "an enhanced prompt"⟩ [] [137, 80] [9, 9]
     (by decide) rfl (by decide) (by decide)).1⟩


end ImagenApp
